import Mathlib

/-!
Verification of the webpa-common repository slice: device listener
aggregation, the authorization decorator, the WRP codec pools, and the
SNS webhook subscription protocol (the latter modelled from the spec,
since only its test file is present in the sources).

Side effects are rendered purely: a listener or broker call is modelled
as a function returning the trace of observable effects it performs, so
sequential invocation becomes concatenation of traces.
-/

/- ===================== device listener aggregation ===================== -/

/-- Opaque device handle (`device.Interface` in the source); only its
identity matters for the claims. -/
structure Interface where
  id : Nat
deriving DecidableEq, Repr

/-- Opaque WRP message (`*wrp.Message` in the source). -/
structure WrpMessage where
  tag : Nat
deriving DecidableEq, Repr

/-- A listener invocation is observable only through the trace of effects
it performs; we model an effect as a `Nat` tag and a listener as a
function returning its emitted trace. -/
abbrev Trace := List Nat

/-- `device.MessageReceivedListener`: sink for device messages, modelled
as a trace-emitting function. -/
abbrev MessageReceivedListener := Interface → List Nat → WrpMessage → Trace

/-- `device.ConnectListener`. -/
abbrev ConnectListener := Interface → Trace

/-- `device.DisconnectListener`. -/
abbrev DisconnectListener := Interface → Trace

/-- `device.PongListener`. -/
abbrev PongListener := Interface → String → Trace

/-- `defaultMessageReceivedListener` from the source: does nothing. -/
def defaultMessageReceivedListener : MessageReceivedListener := fun _ _ _ => []

/-- `defaultConnectListener` from the source: does nothing. -/
def defaultConnectListener : ConnectListener := fun _ => []

/-- `defaultDisconnectListener` from the source: does nothing. -/
def defaultDisconnectListener : DisconnectListener := fun _ => []

/-- `defaultPongListener` from the source: does nothing. -/
def defaultPongListener : PongListener := fun _ _ => []

/-- `device.MessageReceivedListeners`: aggregates listeners into one.
The Go `for` loop calling each listener in order is rendered as the
concatenation, in order, of each listener's emitted trace. -/
def MessageReceivedListeners (listeners : List MessageReceivedListener) :
    MessageReceivedListener :=
  if listeners.length > 0 then
    fun device raw message => (listeners.map (fun l => l device raw message)).flatten
  else
    defaultMessageReceivedListener

/-- `device.ConnectListeners`: aggregates listeners into one. -/
def ConnectListeners (listeners : List ConnectListener) : ConnectListener :=
  if listeners.length > 0 then
    fun device => (listeners.map (fun l => l device)).flatten
  else
    defaultConnectListener

/-- `device.DisconnectListeners`: aggregates listeners into one. -/
def DisconnectListeners (listeners : List DisconnectListener) : DisconnectListener :=
  if listeners.length > 0 then
    fun device => (listeners.map (fun l => l device)).flatten
  else
    defaultDisconnectListener

/-- `device.PongListeners`: aggregates listeners into one. -/
def PongListeners (listeners : List PongListener) : PongListener :=
  if listeners.length > 0 then
    fun device data => (listeners.map (fun l => l device data)).flatten
  else
    defaultPongListener

/- ===================== wrp codec pools ===================== -/

/-- `wrp.Format`: the encoding formats the wrp package supports. -/
inductive Format where
  | json
  | msgpack
deriving DecidableEq, Repr

/-- Concrete codec instance state; only the configured format is
observable for the pool claims. -/
structure EncoderCore where
  format : Format
deriving DecidableEq, Repr

/-- `wrp.Encoder` is a Go interface value, so it can be nil; `none`
models the nil interface. -/
abbrev Encoder := Option EncoderCore

/-- Concrete decoder instance state. -/
structure DecoderCore where
  format : Format
deriving DecidableEq, Repr

/-- `wrp.Decoder` as a possibly-nil interface value. -/
abbrev Decoder := Option DecoderCore

/-- `wrp.NewEncoder` (declared outside the given sources): returns a
fresh, non-nil encoder for the format. -/
def NewEncoder (f : Format) : Encoder := some ⟨f⟩

/-- `wrp.NewDecoder` (declared outside the given sources): returns a
fresh, non-nil decoder for the format. -/
def NewDecoder (f : Format) : Decoder := some ⟨f⟩

/-- `wrp.DefaultPoolSize`. -/
def DefaultPoolSize : Int := 100

/-- `wrp.EncoderPool`: the buffered channel is modelled as a FIFO list
`pool` bounded by the channel capacity `cap`. -/
structure EncoderPool where
  pool : List Encoder
  cap : Nat
  format : Format
deriving DecidableEq, Repr

/-- `wrp.DecoderPool`. -/
structure DecoderPool where
  pool : List Decoder
  cap : Nat
  format : Format
deriving DecidableEq, Repr

/-- `EncoderPool.New`: a new unpooled encoder with the pool's format. -/
def EncoderPool.New (ep : EncoderPool) : Encoder := NewEncoder ep.format

/-- `DecoderPool.New`. -/
def DecoderPool.New (dp : DecoderPool) : Decoder := NewDecoder dp.format

/-- `wrp.NewEncoderPool`: a nonpositive size falls back to
`DefaultPoolSize`; the channel is created with that capacity and filled
with fresh encoders. -/
def NewEncoderPool (poolSize : Int) (f : Format) : EncoderPool :=
  let size : Nat := if poolSize < 1 then DefaultPoolSize.toNat else poolSize.toNat
  { pool := List.replicate size (NewEncoder f), cap := size, format := f }

/-- `wrp.NewDecoderPool`. -/
def NewDecoderPool (poolSize : Int) (f : Format) : DecoderPool :=
  let size : Nat := if poolSize < 1 then DefaultPoolSize.toNat else poolSize.toNat
  { pool := List.replicate size (NewDecoder f), cap := size, format := f }

/-- `EncoderPool.Get`: the `select`/`default` receive takes the first
buffered element when one is available and otherwise falls through to
creating a new encoder; it never blocks. -/
def EncoderPool.Get (ep : EncoderPool) : Encoder × EncoderPool :=
  match ep.pool with
  | e :: rest => (e, { ep with pool := rest })
  | [] => (ep.New, ep)

/-- `DecoderPool.Get`. -/
def DecoderPool.Get (dp : DecoderPool) : Decoder × DecoderPool :=
  match dp.pool with
  | d :: rest => (d, { dp with pool := rest })
  | [] => (dp.New, dp)

/-- `EncoderPool.Put`: a nil encoder is dropped; the `select`/`default`
send succeeds only while the channel holds fewer than `cap` elements,
otherwise the call does nothing. -/
def EncoderPool.Put (ep : EncoderPool) (encoder : Encoder) : EncoderPool :=
  if encoder.isSome then
    if ep.pool.length < ep.cap then { ep with pool := ep.pool ++ [encoder] } else ep
  else
    ep

/-- `DecoderPool.Put`. -/
def DecoderPool.Put (dp : DecoderPool) (decoder : Decoder) : DecoderPool :=
  if decoder.isSome then
    if dp.pool.length < dp.cap then { dp with pool := dp.pool ++ [decoder] } else dp
  else
    dp

/-- Pool invariant maintained by construction and by `Put`: the channel
never holds more than its capacity and never holds a nil codec. -/
def EncoderPool.WellFormed (ep : EncoderPool) : Prop :=
  ep.pool.length ≤ ep.cap ∧ ∀ e ∈ ep.pool, e.isSome

/-- Decoder-side pool invariant. -/
def DecoderPool.WellFormed (dp : DecoderPool) : Prop :=
  dp.pool.length ≤ dp.cap ∧ ∀ d ∈ dp.pool, d.isSome

instance (ep : EncoderPool) : Decidable ep.WellFormed := by
  unfold EncoderPool.WellFormed
  infer_instance

instance (dp : DecoderPool) : Decidable dp.WellFormed := by
  unfold DecoderPool.WellFormed
  infer_instance

/- ===================== secure/handler authorization decorator ===================== -/

/-- `handler.JsonContentType`. -/
def JsonContentType : String := "application/json; charset=UTF-8"

/-- `handler.NoSniff`. -/
def NoSniff : String := "nosniff"

/-- `http.StatusForbidden`. -/
def StatusForbidden : Int := 403

/-- The body written by `WriteJsonError`, literally
`{"message": "<message>"}` as in the `fmt.Fprintf` format string. -/
def jsonMessageBody (message : String) : String :=
  "\x7b\"message\": \"" ++ message ++ "\"\x7d"

/-- The response body as observed by a client. -/
inductive RespBody where
  | empty
  | text (s : String)
deriving DecidableEq, Repr

/-- An HTTP response as far as the decorator's claims observe it: the
status code, the two headers the package sets, and the body. -/
structure HttpResponse where
  status : Int
  contentType : Option String
  contentTypeOptions : Option String
  body : RespBody
deriving DecidableEq, Repr

/-- An inbound HTTP request: header lookup (Go's `Header.Get` returns the
empty string when absent), method and URL path. -/
structure HttpRequest where
  header : String → String
  method : String
  path : String

/-- `handler.WriteJsonError`: sets the JSON content type and nosniff
headers, writes the status code, and writes `{"message": "<message>"}`. -/
def WriteJsonError (code : Int) (message : String) : HttpResponse :=
  { status := code
    contentType := some JsonContentType
    contentTypeOptions := some NoSniff
    body := RespBody.text (jsonMessageBody message) }

/-- Modelled from the spec: `secure.AuthorizationHeader`, the default
authorization header name from the secure package, whose source is not
among the given files. -/
def AuthorizationHeader : String := "Authorization"

/-- A parsed authorization token (`secure.Token`). -/
structure Token where
  scheme : String
  credentials : String
deriving DecidableEq, Repr

/-- Modelled from the spec: `secure.ParseAuthorization`, whose source is
not among the given files; the claims depend only on whether it succeeds.
It splits the header value into a scheme and credentials and fails
otherwise. -/
def ParseAuthorization (value : String) : Except String Token :=
  match value.splitOn (" ") with
  | [scheme, credentials] => Except.ok ⟨scheme, credentials⟩
  | _ => Except.error ("unexpected authorization format")

/-- `secure.Validator` capability: receives the request context (method
and path, as placed in the context by `Decorate`) and the token, and
returns `(valid, error)`; `none` models a nil error. -/
abbrev SecureValidator := String → String → Token → Bool × Option String

/-- `handler.AuthorizationHandler`.  The logger only emits log output,
which no claim observes, so it is omitted from the model. -/
structure AuthorizationHandler where
  HeaderName : String
  ForbiddenStatusCode : Int
  Validator : Option SecureValidator

/-- `AuthorizationHandler.headerName`: the configured header when
non-empty, else `secure.AuthorizationHeader`. -/
def AuthorizationHandler.headerName (a : AuthorizationHandler) : String :=
  if a.HeaderName.length > 0 then a.HeaderName else AuthorizationHeader

/-- `AuthorizationHandler.forbiddenStatusCode`: the configured code when
positive, else `http.StatusForbidden`. -/
def AuthorizationHandler.forbiddenStatusCode (a : AuthorizationHandler) : Int :=
  if a.ForbiddenStatusCode > 0 then a.ForbiddenStatusCode else StatusForbidden

/-- An `http.Handler` as the claims observe it. -/
abbrev Handler := HttpRequest → HttpResponse

/-- `AuthorizationHandler.Decorate`: with no validator the delegate is
returned unchanged; otherwise the header name and forbidden status code
are resolved once, before the request closure is built, and the closure
checks the header, parses it, validates the token, and either invokes
the delegate or denies the request.  Denial after a failed validation
writes only the status code (empty body), mirroring the bare
`response.WriteHeader` in the source. -/
def AuthorizationHandler.Decorate (a : AuthorizationHandler) (delegate : Handler) :
    Handler :=
  match a.Validator with
  | none => delegate
  | some v =>
    let headerName := a.headerName
    let forbiddenStatusCode := a.forbiddenStatusCode
    fun request =>
      let headerValue := request.header headerName
      if headerValue.length = 0 then
        WriteJsonError forbiddenStatusCode ("No " ++ headerName ++ " header")
      else
        match ParseAuthorization headerValue with
        | Except.error e =>
          WriteJsonError forbiddenStatusCode
            ("Invalid authorization header [" ++ headerName ++ "]: " ++ e)
        | Except.ok token =>
          let (valid, err) := v request.method request.path token
          if err.isNone && valid then
            delegate request
          else
            { status := forbiddenStatusCode
              contentType := none
              contentTypeOptions := none
              body := RespBody.empty }

/- ===================== SNS webhook subscription protocol ===================== -/

/-- Modelled from the spec: the pending sentinel identifier.  The SNS
server source is not among the given files; its test asserts the stored
identifier equals the broker's pending token, the literal
`"pending confirmation"`. -/
def PendingSentinel : String := "pending confirmation"

/-- The message-type header value identifying a subscription
confirmation callback (`x-amz-sns-message-type` in the test). -/
def SubscriptionConfirmationType : String := "SubscriptionConfirmation"

/-- Modelled from the spec: Subscription State, the atomically
readable/writable pair of current subscription identifier and
generation (`ss.subscriptionArn` plus the generation counter of the
spec data model). -/
structure SNSState where
  subscriptionArn : String
  generation : Nat
deriving DecidableEq, Repr

/-- Modelled from the spec: initial Subscription State, created with an
empty identifier at generation 0. -/
def initialSNSState : SNSState := { subscriptionArn := "", generation := 0 }

/-- Modelled from the spec: `Load() → (identifier, generation)`. -/
def SNSState.Load (s : SNSState) : String × Nat :=
  (s.subscriptionArn, s.generation)

/-- Modelled from the spec: `IsReady()` is true iff the stored value is
non-empty and not the pending sentinel (for the current generation,
which in this sequential model is the stored one). -/
def SNSState.IsReady (s : SNSState) : Bool :=
  decide (s.subscriptionArn ≠ "") && decide (s.subscriptionArn ≠ PendingSentinel)

/-- Modelled from the spec: `StorePending(generation)` resets the
identifier to the pending sentinel for the given generation. -/
def StorePending (gen : Nat) : SNSState :=
  { subscriptionArn := PendingSentinel, generation := gen }

/-- Modelled from the spec: `StoreConfirmed(identifier, generation)` is
a no-op unless the supplied generation equals the stored one. -/
def StoreConfirmed (s : SNSState) (identifier : String) (gen : Nat) : SNSState :=
  if gen = s.generation then { subscriptionArn := identifier, generation := gen }
  else s

/-- Modelled from the spec: `Subscribe()` increments the generation,
resets Subscription State to pending for the new generation, and issues
the broker subscribe call; on success the broker-returned (pending)
token is stored as the identifier, on failure the state stays not
ready and the error is only logged.  `brokerResp` is the mocked broker
reply: the returned subscription token or an error. -/
def SNSSubscribe (s : SNSState) (brokerResp : Except String String) : SNSState :=
  let pending := StorePending (s.generation + 1)
  match brokerResp with
  | Except.ok token => { pending with subscriptionArn := token }
  | Except.error _ => pending

/-- The parsed confirmation callback body (`*aws.SNSMessage`): the
confirmation token the broker confirm call consumes. -/
structure SNSMessage where
  Token : String
deriving DecidableEq, Repr

/-- The Confirmation Handler's outcome, before rendering to HTTP. -/
inductive ConfirmOutcome where
  | accepted
  | unsupportedMsgType
  | malformedBody
  | validationFailed (message : String)
  | confirmCallFailed (message : String)
deriving DecidableEq, Repr

/-- The JSON error body `{"code": <code>, "message": "<message>"}`
(`aws.ErrResp` in the test). -/
def errRespBody (code : Int) (message : String) : String :=
  "\x7b\"code\": " ++ toString code ++ ", \"message\": \"" ++ message ++ "\"\x7d"

/-- Modelled from the spec: rendering of a Confirmation Handler outcome
to an HTTP status and body — 200 with empty body on success, 400 with
the structured JSON error body for validation and parse failures, an
upstream error status for confirm-call failures. -/
def ConfirmOutcome.render : ConfirmOutcome → Int × String
  | ConfirmOutcome.accepted => (200, "")
  | ConfirmOutcome.unsupportedMsgType => (400, errRespBody 400 ("unsupported message type"))
  | ConfirmOutcome.malformedBody => (400, errRespBody 400 ("malformed body"))
  | ConfirmOutcome.validationFailed m => (400, errRespBody 400 m)
  | ConfirmOutcome.confirmCallFailed m => (500, errRespBody 500 m)

/-- Modelled from the spec: the Confirmation Handler
(`SubscribeConfirmHandle`).  Inputs carry the request (message-type
header and parsed body, `none` for a parse failure) together with the
mocked collaborator replies: the Validator result `(valid, error)` and
the broker `ConfirmSubscription` reply.  Output is the new Subscription
State, the outcome, and whether the broker confirm call was invoked.
A request whose message type is not a subscription confirmation is
rejected without touching state; a validation failure (invalid result
or validator error) yields the 400 outcome carrying the validator's
error message and leaves state untouched; otherwise the broker confirm
call runs and on success its returned identifier is stored via
`StoreConfirmed` for the current generation. -/
def SubscribeConfirmHandle (s : SNSState) (msgType : String)
    (body : Option SNSMessage) (validateRes : Bool × Option String)
    (confirmResp : Except String String) : SNSState × ConfirmOutcome × Bool :=
  if msgType ≠ SubscriptionConfirmationType then
    (s, ConfirmOutcome.unsupportedMsgType, false)
  else
    match body with
    | none => (s, ConfirmOutcome.malformedBody, false)
    | some _ =>
      let (valid, verr) := validateRes
      if verr.isSome || !valid then
        (s, ConfirmOutcome.validationFailed (verr.getD ("SNS message validation failed")),
          false)
      else
        match confirmResp with
        | Except.error e => (s, ConfirmOutcome.confirmCallFailed e, true)
        | Except.ok arn => (StoreConfirmed s arn s.generation, ConfirmOutcome.accepted, true)

/-- Modelled from the spec: `PublishMessage(payload)` is fire-and-forget;
the per-generation worker is active exactly while the current generation
is ready, so a payload sent while ready is delivered to the broker
`Publish` call exactly once and a payload sent while not ready is
dropped.  The result is the list of broker `Publish` invocations the
call gives rise to. -/
def PublishMessage (s : SNSState) (payload : String) : List String :=
  if s.IsReady then [payload] else []

/-- One externally observable event of the protocol, carrying the mocked
collaborator replies it consumes. -/
inductive SNSCmd where
  | subscribe (brokerResp : Except String String)
  | confirm (msgType : String) (body : Option SNSMessage)
      (validateRes : Bool × Option String) (confirmResp : Except String String)
  | publish (payload : String)

/-- Modelled from the spec: one protocol step, returning the new
Subscription State and the payloads delivered to the broker `Publish`
call during the step. -/
def SNSStep (s : SNSState) : SNSCmd → SNSState × List String
  | SNSCmd.subscribe r => (SNSSubscribe s r, [])
  | SNSCmd.confirm mt b v c => ((SubscribeConfirmHandle s mt b v c).1, [])
  | SNSCmd.publish p => (s, PublishMessage s p)

/-- Modelled from the spec: running a sequence of protocol events,
collecting every payload delivered to the broker in order. -/
def SNSRun (s : SNSState) : List SNSCmd → SNSState × List String
  | [] => (s, [])
  | c :: cs =>
    let (s1, out) := SNSStep s c
    let (s2, outs) := SNSRun s1 cs
    (s2, out ++ outs)

/- ===================== theorems ===================== -/

/-- C6: each variadic listener-aggregation function returns the no-op
default (which performs no effect) when given zero listeners, and given
n > 0 listeners returns a single function that, on each invocation,
calls every provided listener exactly once in the order supplied —
rendered as the in-order concatenation of the listeners' effect
traces. -/
theorem listener_aggregation_spec :
    (MessageReceivedListeners [] = defaultMessageReceivedListener) ∧
    (∀ d r m, defaultMessageReceivedListener d r m = []) ∧
    (∀ ls, ls ≠ [] → ∀ d r m,
      MessageReceivedListeners ls d r m = (ls.map (fun l => l d r m)).flatten) ∧
    (ConnectListeners [] = defaultConnectListener) ∧
    (∀ d, defaultConnectListener d = []) ∧
    (∀ ls, ls ≠ [] → ∀ d,
      ConnectListeners ls d = (ls.map (fun l => l d)).flatten) ∧
    (DisconnectListeners [] = defaultDisconnectListener) ∧
    (∀ d, defaultDisconnectListener d = []) ∧
    (∀ ls, ls ≠ [] → ∀ d,
      DisconnectListeners ls d = (ls.map (fun l => l d)).flatten) ∧
    (PongListeners [] = defaultPongListener) ∧
    (∀ d x, defaultPongListener d x = []) ∧
    (∀ ls, ls ≠ [] → ∀ d x,
      PongListeners ls d x = (ls.map (fun l => l d x)).flatten) := by
  refine ⟨rfl, fun _ _ _ => rfl, ?_, rfl, fun _ => rfl, ?_, rfl, fun _ => rfl, ?_,
    rfl, fun _ _ => rfl, ?_⟩ <;>
    intro ls h <;>
    first
      | (intro d r m
         simp [MessageReceivedListeners, List.length_pos.mpr h])
      | (intro d
         simp [ConnectListeners, DisconnectListeners, List.length_pos.mpr h])
      | (intro d x
         simp [PongListeners, List.length_pos.mpr h])

/-- C6 witness: two concrete listeners are each called exactly once, in
order, and the empty aggregation is the default. -/
theorem listener_aggregation_spec_witness :
    MessageReceivedListeners
        [fun _ _ _ => [1], fun _ _ _ => [2]] ⟨0⟩ [] ⟨0⟩ = [1, 2] ∧
    ConnectListeners [] = defaultConnectListener := by
  refine ⟨?_, listener_aggregation_spec.2.2.2.1⟩
  have h := listener_aggregation_spec.2.2.1
    [fun _ _ _ => [1], fun _ _ _ => [2]] (by simp) ⟨0⟩ [] ⟨0⟩
  simpa using h

/-- C7: the configuration defaults are resolved by `headerName` and
`forbiddenStatusCode`, which `Decorate` evaluates once before building
the per-request closure: an empty `HeaderName` falls back to
`secure.AuthorizationHeader`, a nonpositive `ForbiddenStatusCode` falls
back to `http.StatusForbidden` (403), and otherwise the configured
values are used; the resolved values are what the decorated handler's
responses carry. -/
theorem authorizationHandler_defaults (a : AuthorizationHandler) :
    (a.HeaderName.length = 0 → a.headerName = AuthorizationHeader) ∧
    (a.HeaderName.length ≠ 0 → a.headerName = a.HeaderName) ∧
    (a.ForbiddenStatusCode ≤ 0 → a.forbiddenStatusCode = StatusForbidden) ∧
    (0 < a.ForbiddenStatusCode → a.forbiddenStatusCode = a.ForbiddenStatusCode) ∧
    (∀ v d req, a.Validator = some v → (req.header a.headerName).length = 0 →
      a.Decorate d req =
        WriteJsonError a.forbiddenStatusCode ("No " ++ a.headerName ++ " header")) := by
  refine ⟨?_, ?_, ?_, ?_, ?_⟩
  · intro h
    simp [AuthorizationHandler.headerName, h]
  · intro h
    have hp : a.HeaderName.length > 0 := Nat.pos_of_ne_zero h
    simp [AuthorizationHandler.headerName, hp]
  · intro h
    have hng : ¬(a.ForbiddenStatusCode > 0) := not_lt.mpr h
    simp [AuthorizationHandler.forbiddenStatusCode, hng]
  · intro h
    simp [AuthorizationHandler.forbiddenStatusCode, h]
  · intro v d req hv hlen
    simp [AuthorizationHandler.Decorate, hv, hlen]

/-- C7 witness: with an empty header name and a zero status code the
defaults are `secure.AuthorizationHeader` and 403. -/
theorem authorizationHandler_defaults_witness :
    (AuthorizationHandler.mk "" 0 none).headerName = AuthorizationHeader ∧
    (AuthorizationHandler.mk "" 0 none).forbiddenStatusCode = StatusForbidden :=
  ⟨(authorizationHandler_defaults (AuthorizationHandler.mk "" 0 none)).1 (by decide),
   (authorizationHandler_defaults (AuthorizationHandler.mk "" 0 none)).2.2.1 (by decide)⟩

/-- C10: with a nil validator, `Decorate` returns the delegate handler
itself unchanged. -/
theorem decorate_nil_validator_identity (a : AuthorizationHandler)
    (h : a.Validator = none) (delegate : Handler) :
    a.Decorate delegate = delegate := by
  simp [AuthorizationHandler.Decorate, h]

/-- C10 witness: a concrete handler with no validator decorates a
concrete delegate to itself. -/
theorem decorate_nil_validator_identity_witness :
    (AuthorizationHandler.mk "" 0 none).Decorate
        (fun _ => HttpResponse.mk 200 none none RespBody.empty) =
      (fun _ => HttpResponse.mk 200 none none RespBody.empty) :=
  decorate_nil_validator_identity (AuthorizationHandler.mk "" 0 none) rfl
    (fun _ => HttpResponse.mk 200 none none RespBody.empty)

/-- C4: while Subscription State is ready, a single `PublishMessage(X)`
call delivers exactly one broker `Publish` invocation carrying `X`. -/
theorem publish_when_ready (s : SNSState) (payload : String)
    (h : s.IsReady = true) :
    PublishMessage s payload = [payload] ∧
    SNSStep s (SNSCmd.publish payload) = (s, [payload]) := by
  constructor
  · simp [PublishMessage, h]
  · simp [SNSStep, PublishMessage, h]

/-- C4 witness: a confirmed state delivers the concrete payload exactly
once. -/
theorem publish_when_ready_witness :
    PublishMessage (SNSState.mk "arn-123" 1) "X" = ["X"] :=
  (publish_when_ready (SNSState.mk "arn-123" 1) "X" (by decide)).1

/-- C5: a request whose message-type header is not the
subscription-confirmation type is rejected with the
unsupported-message-type outcome, the broker confirm call is never
made, and Subscription State is unchanged. -/
theorem confirm_handler_unsupported_type (s : SNSState) (msgType : String)
    (body : Option SNSMessage) (validateRes : Bool × Option String)
    (confirmResp : Except String String)
    (h : msgType ≠ SubscriptionConfirmationType) :
    SubscribeConfirmHandle s msgType body validateRes confirmResp =
      (s, ConfirmOutcome.unsupportedMsgType, false) := by
  simp [SubscribeConfirmHandle, h]

/-- C5 witness: a `Notification` callback is rejected without touching
the pending state. -/
theorem confirm_handler_unsupported_type_witness :
    SubscribeConfirmHandle (StorePending 1) "Notification" none (true, none)
        (Except.ok "arn") =
      (StorePending 1, ConfirmOutcome.unsupportedMsgType, false) :=
  confirm_handler_unsupported_type (StorePending 1) "Notification" none (true, none)
    (Except.ok "arn") (by decide)

/-- C1: a confirmation callback whose Validate call fails — an invalid
result or a validator error — leaves Subscription State untouched (a
pending identifier is still the pending sentinel), never reaches the
broker confirm call, and when the validator supplied an error message
the outcome is the 400 response whose JSON body carries code 400 and
that message. -/
theorem confirm_handler_validation_failure (s : SNSState) (body : SNSMessage)
    (valid : Bool) (verr : Option String) (confirmResp : Except String String)
    (hFail : verr.isSome || !valid) :
    (SubscribeConfirmHandle s SubscriptionConfirmationType (some body) (valid, verr)
        confirmResp).1 = s ∧
    (SubscribeConfirmHandle s SubscriptionConfirmationType (some body) (valid, verr)
        confirmResp).2.2 = false ∧
    (∀ m, verr = some m →
      (SubscribeConfirmHandle s SubscriptionConfirmationType (some body) (valid, verr)
          confirmResp).2.1 = ConfirmOutcome.validationFailed m) ∧
    (∀ m, (ConfirmOutcome.validationFailed m).render = (400, errRespBody 400 m)) ∧
    (s.subscriptionArn = PendingSentinel →
      (SubscribeConfirmHandle s SubscriptionConfirmationType (some body) (valid, verr)
          confirmResp).1.subscriptionArn = PendingSentinel) := by
  have hmain : SubscribeConfirmHandle s SubscriptionConfirmationType (some body)
      (valid, verr) confirmResp =
      (s, ConfirmOutcome.validationFailed (verr.getD ("SNS message validation failed")),
        false) := by
    simp [SubscribeConfirmHandle, hFail]
  refine ⟨by rw [hmain], by rw [hmain], ?_, fun m => rfl, ?_⟩
  · intro m hm
    rw [hmain, hm]
    rfl
  · intro hp
    rw [hmain]
    exact hp

/-- C1 witness: the test scenario — pending state, validator returns
`(false, error)` — yields the unchanged pending state, no confirm call,
and the 400 body carrying the validator's message. -/
theorem confirm_handler_validation_failure_witness :
    (SubscribeConfirmHandle (StorePending 1) SubscriptionConfirmationType
        (some (SNSMessage.mk "tok")) (false, some "SNS signature check failed")
        (Except.ok "arn")).1 = StorePending 1 ∧
    (SubscribeConfirmHandle (StorePending 1) SubscriptionConfirmationType
        (some (SNSMessage.mk "tok")) (false, some "SNS signature check failed")
        (Except.ok "arn")).2.1 =
      ConfirmOutcome.validationFailed "SNS signature check failed" := by
  have h := confirm_handler_validation_failure (StorePending 1) (SNSMessage.mk "tok")
    false (some "SNS signature check failed") (Except.ok "arn") (by decide)
  exact ⟨h.1, h.2.2.1 "SNS signature check failed" rfl⟩

/-- C2: starting from the initial state, `Subscribe()` stores the
broker-returned pending token and the system is not ready; a
subscription-confirmation callback that passes Validate invokes the
broker confirm call, yields the 200 outcome with empty body, and stores
the broker's confirmed identifier, after which `Load()` returns it with
generation 1 and the system is ready. -/
theorem subscribe_then_confirm_scenario (arn : String) (body : SNSMessage)
    (hne : arn ≠ "") (hnp : arn ≠ PendingSentinel) :
    (SNSSubscribe initialSNSState (Except.ok PendingSentinel)).subscriptionArn =
      PendingSentinel ∧
    (SNSSubscribe initialSNSState (Except.ok PendingSentinel)).IsReady = false ∧
    (SubscribeConfirmHandle (SNSSubscribe initialSNSState (Except.ok PendingSentinel))
        SubscriptionConfirmationType (some body) (true, none) (Except.ok arn)).2.2 = true ∧
    (SubscribeConfirmHandle (SNSSubscribe initialSNSState (Except.ok PendingSentinel))
        SubscriptionConfirmationType (some body) (true, none) (Except.ok arn)).2.1 =
      ConfirmOutcome.accepted ∧
    ConfirmOutcome.accepted.render = (200, "") ∧
    (SubscribeConfirmHandle (SNSSubscribe initialSNSState (Except.ok PendingSentinel))
        SubscriptionConfirmationType (some body) (true, none) (Except.ok arn)).1.Load =
      (arn, 1) ∧
    (SubscribeConfirmHandle (SNSSubscribe initialSNSState (Except.ok PendingSentinel))
        SubscriptionConfirmationType (some body) (true, none) (Except.ok arn)).1.IsReady =
      true := by
  have h1 : SNSSubscribe initialSNSState (Except.ok PendingSentinel) =
      SNSState.mk PendingSentinel 1 := rfl
  have h2 : SubscribeConfirmHandle (SNSState.mk PendingSentinel 1)
      SubscriptionConfirmationType (some body) (true, none) (Except.ok arn) =
      (SNSState.mk arn 1, ConfirmOutcome.accepted, true) := by
    simp [SubscribeConfirmHandle, StoreConfirmed]
  refine ⟨by rw [h1], ?_, ?_, ?_, rfl, ?_, ?_⟩
  · rw [h1]
    simp [SNSState.IsReady]
  · rw [h1, h2]
  · rw [h1, h2]
  · rw [h1, h2]
    rfl
  · rw [h1, h2]
    simp [SNSState.IsReady, hne, hnp]

/-- C2 witness: the spec's Scenario A at the concrete identifier
`arn-123`. -/
theorem subscribe_then_confirm_scenario_witness :
    (SubscribeConfirmHandle (SNSSubscribe initialSNSState (Except.ok PendingSentinel))
        SubscriptionConfirmationType (some (SNSMessage.mk "tok")) (true, none)
        (Except.ok "arn-123")).1.Load = ("arn-123", 1) :=
  (subscribe_then_confirm_scenario "arn-123" (SNSMessage.mk "tok") (by decide)
    (by decide)).2.2.2.2.2.1

/-- C3: a payload passed to `PublishMessage` while the state is not
ready is never delivered — the step produces no broker `Publish` call
and leaves every future trace unchanged — and Scenario C holds: a
`Subscribe()` while ready resets the state to the pending sentinel and
advances the generation, an immediate `PublishMessage` reaches the
broker zero times, and once the new generation is confirmed a
`PublishMessage` reaches the broker exactly once. -/
theorem readiness_gating (s : SNSState) (p : String) (body : SNSMessage)
    (arn2 : String) :
    (s.IsReady = false → PublishMessage s p = [] ∧
      SNSStep s (SNSCmd.publish p) = (s, []) ∧
      (∀ cmds, SNSRun s (SNSCmd.publish p :: cmds) = SNSRun s cmds)) ∧
    (s.IsReady = true → arn2 ≠ "" → arn2 ≠ PendingSentinel →
      (SNSSubscribe s (Except.ok PendingSentinel)).subscriptionArn = PendingSentinel ∧
      (SNSSubscribe s (Except.ok PendingSentinel)).generation = s.generation + 1 ∧
      (SNSSubscribe s (Except.ok PendingSentinel)).IsReady = false ∧
      PublishMessage (SNSSubscribe s (Except.ok PendingSentinel)) p = [] ∧
      (SubscribeConfirmHandle (SNSSubscribe s (Except.ok PendingSentinel))
          SubscriptionConfirmationType (some body) (true, none)
          (Except.ok arn2)).1.IsReady = true ∧
      (∀ z, PublishMessage (SubscribeConfirmHandle
          (SNSSubscribe s (Except.ok PendingSentinel)) SubscriptionConfirmationType
          (some body) (true, none) (Except.ok arn2)).1 z = [z])) := by
  constructor
  · intro h
    refine ⟨by simp [PublishMessage, h], by simp [SNSStep, PublishMessage, h], ?_⟩
    intro cmds
    simp [SNSRun, SNSStep, PublishMessage, h]
  · intro hready hne hnp
    have h1 : SNSSubscribe s (Except.ok PendingSentinel) =
        SNSState.mk PendingSentinel (s.generation + 1) := rfl
    have h2 : SubscribeConfirmHandle (SNSState.mk PendingSentinel (s.generation + 1))
        SubscriptionConfirmationType (some body) (true, none) (Except.ok arn2) =
        (SNSState.mk arn2 (s.generation + 1), ConfirmOutcome.accepted, true) := by
      simp [SubscribeConfirmHandle, StoreConfirmed]
    have hnotready : (SNSState.mk PendingSentinel (s.generation + 1)).IsReady = false := by
      simp [SNSState.IsReady]
    refine ⟨by rw [h1], by rw [h1], by rw [h1]; exact hnotready, ?_, ?_, ?_⟩
    · rw [h1]
      simp [PublishMessage, hnotready]
    · rw [h1, h2]
      simp [SNSState.IsReady, hne, hnp]
    · intro z
      rw [h1, h2]
      simp [PublishMessage, SNSState.IsReady, hne, hnp]

/-- C3 witness: the not-ready drop at the pending state, and Scenario C
from a ready generation-1 state with confirmed identifier `arn-2`. -/
theorem readiness_gating_witness :
    PublishMessage (SNSState.mk PendingSentinel 1) "Y" = [] ∧
    PublishMessage (SNSSubscribe (SNSState.mk "arn-1" 1) (Except.ok PendingSentinel))
      "Y" = [] := by
  have ha := (readiness_gating (SNSState.mk PendingSentinel 1) "Y"
    (SNSMessage.mk "tok") "arn-2").1 (by decide)
  have hb := (readiness_gating (SNSState.mk "arn-1" 1) "Y"
    (SNSMessage.mk "tok") "arn-2").2 (by decide) (by decide) (by decide)
  exact ⟨ha.1, hb.2.2.2.1⟩

/-- C8: both codec pools implement bounded get-or-create /
put-if-room semantics: `Get` hands out the first pooled instance when
one is available and otherwise creates a fresh one, never returning a
nil codec; `Put` does nothing when the codec is nil or the pool is at
capacity, so a well-formed pool stays within its capacity (and
`Get` preserves well-formedness, as does construction). -/
theorem codec_pool_spec (ep : EncoderPool) (dp : DecoderPool)
    (e : Encoder) (d : Decoder) :
    (∀ x rest, ep.pool = x :: rest → ep.Get = (x, { ep with pool := rest })) ∧
    (ep.pool = [] → ep.Get = (ep.New, ep)) ∧
    (ep.WellFormed → (ep.Get).1.isSome = true) ∧
    (ep.Put none = ep) ∧
    (ep.cap ≤ ep.pool.length → ep.Put e = ep) ∧
    (ep.WellFormed → (ep.Put e).WellFormed) ∧
    (ep.WellFormed → (ep.Get).2.WellFormed) ∧
    (∀ n f, (NewEncoderPool n f).WellFormed) ∧
    (∀ x rest, dp.pool = x :: rest → dp.Get = (x, { dp with pool := rest })) ∧
    (dp.pool = [] → dp.Get = (dp.New, dp)) ∧
    (dp.WellFormed → (dp.Get).1.isSome = true) ∧
    (dp.Put none = dp) ∧
    (dp.cap ≤ dp.pool.length → dp.Put d = dp) ∧
    (dp.WellFormed → (dp.Put d).WellFormed) ∧
    (dp.WellFormed → (dp.Get).2.WellFormed) ∧
    (∀ n f, (NewDecoderPool n f).WellFormed) := by
  refine ⟨?_, ?_, ?_, ?_, ?_, ?_, ?_, ?_, ?_, ?_, ?_, ?_, ?_, ?_, ?_, ?_⟩
  · intro x rest h
    simp [EncoderPool.Get, h]
  · intro h
    simp [EncoderPool.Get, h]
  · rintro ⟨-, hall⟩
    cases hp : ep.pool with
    | nil => simp [EncoderPool.Get, hp, EncoderPool.New, NewEncoder]
    | cons x rest =>
      have := hall x (by rw [hp]; exact List.mem_cons_self x rest)
      simpa [EncoderPool.Get, hp] using this
  · simp [EncoderPool.Put]
  · intro h
    have hng : ¬(ep.pool.length < ep.cap) := Nat.not_lt.mpr h
    simp [EncoderPool.Put, hng]
  · rintro ⟨hlen, hall⟩
    by_cases he : e.isSome
    · by_cases hlt : ep.pool.length < ep.cap
      · refine ⟨?_, ?_⟩
        · simp only [EncoderPool.Put, he, hlt, if_true]
          simp
          omega
        · simp only [EncoderPool.Put, he, hlt, if_true]
          intro x hx
          rcases List.mem_append.mp hx with h1 | h2
          · exact hall x h1
          · simp at h2
            exact h2 ▸ he
      · simpa [EncoderPool.Put, he, hlt] using ⟨hlen, hall⟩
    · simpa [EncoderPool.Put, he] using ⟨hlen, hall⟩
  · rintro ⟨hlen, hall⟩
    cases hp : ep.pool with
    | nil =>
      refine ⟨?_, ?_⟩
      · simp only [EncoderPool.Get, hp]
        simp
      · simp only [EncoderPool.Get, hp]
        simp
    | cons x rest =>
      refine ⟨?_, ?_⟩
      · have : (x :: rest).length ≤ ep.cap := hp ▸ hlen
        simp only [EncoderPool.Get, hp]
        simp at this ⊢
        omega
      · intro y hy
        simp only [EncoderPool.Get, hp] at hy
        exact hall y (by rw [hp]; exact List.mem_cons_of_mem x hy)
  · intro n f
    refine ⟨by simp [NewEncoderPool], ?_⟩
    intro x hx
    have := List.eq_of_mem_replicate (by simpa [NewEncoderPool] using hx)
    simp [this, NewEncoder]
  · intro x rest h
    simp [DecoderPool.Get, h]
  · intro h
    simp [DecoderPool.Get, h]
  · rintro ⟨-, hall⟩
    cases hp : dp.pool with
    | nil => simp [DecoderPool.Get, hp, DecoderPool.New, NewDecoder]
    | cons x rest =>
      have := hall x (by rw [hp]; exact List.mem_cons_self x rest)
      simpa [DecoderPool.Get, hp] using this
  · simp [DecoderPool.Put]
  · intro h
    have hng : ¬(dp.pool.length < dp.cap) := Nat.not_lt.mpr h
    simp [DecoderPool.Put, hng]
  · rintro ⟨hlen, hall⟩
    by_cases he : d.isSome
    · by_cases hlt : dp.pool.length < dp.cap
      · refine ⟨?_, ?_⟩
        · simp only [DecoderPool.Put, he, hlt, if_true]
          simp
          omega
        · simp only [DecoderPool.Put, he, hlt, if_true]
          intro x hx
          rcases List.mem_append.mp hx with h1 | h2
          · exact hall x h1
          · simp at h2
            exact h2 ▸ he
      · simpa [DecoderPool.Put, he, hlt] using ⟨hlen, hall⟩
    · simpa [DecoderPool.Put, he] using ⟨hlen, hall⟩
  · rintro ⟨hlen, hall⟩
    cases hp : dp.pool with
    | nil =>
      refine ⟨?_, ?_⟩
      · simp only [DecoderPool.Get, hp]
        simp
      · simp only [DecoderPool.Get, hp]
        simp
    | cons x rest =>
      refine ⟨?_, ?_⟩
      · have : (x :: rest).length ≤ dp.cap := hp ▸ hlen
        simp only [DecoderPool.Get, hp]
        simp at this ⊢
        omega
      · intro y hy
        simp only [DecoderPool.Get, hp] at hy
        exact hall y (by rw [hp]; exact List.mem_cons_of_mem x hy)
  · intro n f
    refine ⟨by simp [NewDecoderPool], ?_⟩
    intro x hx
    have := List.eq_of_mem_replicate (by simpa [NewDecoderPool] using hx)
    simp [this, NewDecoder]

/-- C8 witness: a freshly built pool of capacity 2 hands out a non-nil
encoder, and a decoder `Put` into a full pool is dropped. -/
theorem codec_pool_spec_witness :
    (NewEncoderPool 2 Format.json).Get.1.isSome = true ∧
    (NewDecoderPool 2 Format.json).Put (NewDecoder Format.json) =
      NewDecoderPool 2 Format.json := by
  have h := codec_pool_spec (NewEncoderPool 2 Format.json)
    (NewDecoderPool 2 Format.json) none (NewDecoder Format.json)
  exact ⟨h.2.2.1 (by decide), h.2.2.2.2.2.2.2.2.2.2.2.2.1 (by decide)⟩

/-- C9: the decorated handler invokes the delegate exactly when the
authorization header is present, parses, and the validator returns
`(true, nil)`; a missing or unparsable header yields the forbidden
status with the JSON error body, while a validation error or a false
validation result yields the forbidden status with an empty body and
no headers set, independent of the delegate. -/
theorem decorate_request_dispatch (a : AuthorizationHandler) (v : SecureValidator)
    (delegate : Handler) (req : HttpRequest) (hv : a.Validator = some v) :
    ((req.header a.headerName).length = 0 →
      a.Decorate delegate req =
        WriteJsonError a.forbiddenStatusCode ("No " ++ a.headerName ++ " header")) ∧
    (∀ e, (req.header a.headerName).length ≠ 0 →
      ParseAuthorization (req.header a.headerName) = Except.error e →
      a.Decorate delegate req =
        WriteJsonError a.forbiddenStatusCode
          ("Invalid authorization header [" ++ a.headerName ++ "]: " ++ e)) ∧
    (∀ t, (req.header a.headerName).length ≠ 0 →
      ParseAuthorization (req.header a.headerName) = Except.ok t →
      v req.method req.path t = (true, none) →
      a.Decorate delegate req = delegate req) ∧
    (∀ t b err, (req.header a.headerName).length ≠ 0 →
      ParseAuthorization (req.header a.headerName) = Except.ok t →
      v req.method req.path t = (b, err) → (b = false ∨ err ≠ none) →
      a.Decorate delegate req =
        HttpResponse.mk a.forbiddenStatusCode none none RespBody.empty) := by
  refine ⟨?_, ?_, ?_, ?_⟩
  · intro hlen
    simp [AuthorizationHandler.Decorate, hv, hlen]
  · intro e hlen hpe
    simp [AuthorizationHandler.Decorate, hv, hlen, hpe]
  · intro t hlen hpt hval
    simp [AuthorizationHandler.Decorate, hv, hlen, hpt, hval]
  · intro t b err hlen hpt hval hbad
    simp only [AuthorizationHandler.Decorate, hv, hlen, hpt, hval]
    have hcond : (err.isNone && b) = false := by
      rcases hbad with hb | he
      · simp [hb]
      · cases err with
        | none => exact absurd rfl he
        | some m => simp
    simp [hlen, hcond]

/-- C9 witness: with the default configuration and a request lacking the
authorization header, the decorated handler responds 403 with the JSON
error body and leaves the delegate uninvoked. -/
theorem decorate_request_dispatch_witness :
    (AuthorizationHandler.mk "" 0 (some (fun _ _ _ => (true, none)))).Decorate
        (fun _ => HttpResponse.mk 200 none none RespBody.empty)
        (HttpRequest.mk (fun _ => "") "GET" "/") =
      WriteJsonError 403 ("No " ++ AuthorizationHeader ++ " header") := by
  have h := (decorate_request_dispatch
    (AuthorizationHandler.mk "" 0 (some (fun _ _ _ => (true, none))))
    (fun _ _ _ => (true, none))
    (fun _ => HttpResponse.mk 200 none none RespBody.empty)
    (HttpRequest.mk (fun _ => "") "GET" "/") rfl).1 (by decide)
  simpa [AuthorizationHandler.headerName, AuthorizationHandler.forbiddenStatusCode,
    AuthorizationHeader, StatusForbidden] using h
